import Mathlib

/-!
# Verification of `handtrackingmodule.py` (VisionHandTracker)

A shallow embedding of the single source file `src/handtrackingmodule.py`.
The external MediaPipe hand-landmark model is an abstract deterministic
function `Frame → DetectionResult` (a parameter of the detector), as the
code treats it as a black box.  OpenCV drawing primitives are modelled as
operations appended to the frame's overlay list; the raw pixel buffer of a
frame is its `base` field together with the accumulated overlay `ops`.
Python `int()` on a nonnegative/negative rational truncates toward zero,
which `truncQ` models; machine floats are modelled as rationals.
-/

/-- One normalized landmark as reported by the model: coordinates `x`, `y`
(nominally in `[0,1]`, but not guaranteed). -/
structure Landmark where
  x : ℚ
  y : ℚ
  deriving DecidableEq, Repr

/-- A detected hand: the `landmark` field mirrors `myHand.landmark`, the
ordered sequence of landmarks of the hand. -/
structure Hand where
  landmark : List Landmark
  deriving DecidableEq, Repr

/-- The result of `self.hands.process(imgRGB)`: `multi_hand_landmarks` is
`None` when no hands are found, else the list of detected hands. -/
structure DetectionResult where
  multi_hand_landmarks : Option (List Hand)
  deriving DecidableEq, Repr

/-- Python truthiness of `results.multi_hand_landmarks`: `None` and the
empty list are falsy. -/
def DetectionResult.truthy (r : DetectionResult) : Bool :=
  match r.multi_hand_landmarks with
  | none => false
  | some hs => !hs.isEmpty

/-- An OpenCV / MediaPipe drawing primitive applied to a frame's pixel
buffer. -/
inductive DrawOp where
  /-- `mpDraw.draw_landmarks(img, handLms, HAND_CONNECTIONS)` -/
  | skeleton (handLms : Hand)
  /-- `cv.circle(img, (cx, cy), 8, (255, 0, 255), cv.FILLED)` -/
  | circle (cx cy : ℤ)
  /-- `cv.putText(img, "FPS: <n>", (10, 70), ...)` -/
  | fpsText (n : ℤ)
  deriving DecidableEq, Repr

/-- A video frame: `img.shape` is `(h, w, c)`; `rgb` records the channel
order (`false` = BGR as captured); `base` identifies the raw captured pixel
content and `ops` the overlay drawing applied to the buffer since capture. -/
structure Frame where
  h : ℕ
  w : ℕ
  c : ℕ
  rgb : Bool
  base : ℕ
  ops : List DrawOp
  deriving DecidableEq, Repr

/-- `cv.cvtColor(img, cv.COLOR_BGR2RGB)`: a fresh image with the channel
order swapped; the input frame is not mutated. -/
def cvtColorBGR2RGB (img : Frame) : Frame :=
  { img with rgb := true }

/-- `mpDraw.draw_landmarks(img, handLms, HAND_CONNECTIONS)`: draws the
landmark-connection skeleton onto the buffer in place. -/
def drawLandmarks (img : Frame) (handLms : Hand) : Frame :=
  { img with ops := img.ops ++ [DrawOp.skeleton handLms] }

/-- `cv.circle(img, (cx, cy), 8, (255, 0, 255), cv.FILLED)`: draws a filled
circle onto the buffer in place. -/
def drawCircle (img : Frame) (cx cy : ℤ) : Frame :=
  { img with ops := img.ops ++ [DrawOp.circle cx cy] }

/-- Python `int()` applied to a rational: truncation toward zero. -/
def truncQ (q : ℚ) : ℤ :=
  if 0 ≤ q then ⌊q⌋ else ⌈q⌉

/-- One entry `[id, cx, cy]` of the list returned by `findPosition`. -/
structure PixelPosition where
  id : ℕ
  cx : ℤ
  cy : ℤ
  deriving DecidableEq, Repr

/-- The `HandDetector` class.  The four configuration fields are fixed at
construction; `hands` is the handle to the configured external landmark
model (assumed deterministic, hence a function); `results` is the most
recent detection result, `None` initially. -/
structure HandDetector where
  mode : Bool
  max_hands : ℕ
  detection_con : ℚ
  track_con : ℚ
  hands : Frame → DetectionResult
  results : Option DetectionResult

/-- `HandDetector.__init__(mode, max_hands, detection_con, track_con)` with
`model` the external `mp.solutions.hands.Hands(...)` handle the constructor
builds from the four parameters; `self.results = None`. -/
def HandDetector.init (mode : Bool) (max_hands : ℕ) (detection_con track_con : ℚ)
    (model : Frame → DetectionResult) : HandDetector :=
  { mode := mode
    max_hands := max_hands
    detection_con := detection_con
    track_con := track_con
    hands := model
    results := none }

/-- `HandDetector.findHands(self, img, draw=True)`: converts the frame to
RGB, runs the model, stores the result in `self.results`, then (guarded by
the Python truthiness of `multi_hand_landmarks`) draws the skeleton of each
hand onto the original BGR frame when `draw` is true.  Returns the updated
detector state together with the (possibly mutated) frame. -/
def HandDetector.findHands (self : HandDetector) (img : Frame) (draw : Bool) :
    HandDetector × Frame :=
  let imgRGB := cvtColorBGR2RGB img
  let res := self.hands imgRGB
  let self := { self with results := some res }
  let img :=
    if res.truthy then
      match res.multi_hand_landmarks with
      | none => img
      | some hs =>
          hs.foldl (fun im handLms => if draw then drawLandmarks im handLms else im) img
    else img
  (self, img)

/-- The body of the `for id, lm in enumerate(myHand.landmark):` loop of
`findPosition`: reads `h, w, c = img.shape` from the current buffer each
iteration, computes `cx, cy = int(lm.x * w), int(lm.y * h)`, appends
`[id, cx, cy]`, and draws a circle when `draw` is true. -/
def positionLoop (draw : Bool) : List Landmark → ℕ → List PixelPosition → Frame →
    List PixelPosition × Frame
  | [], _, lmList, im => (lmList, im)
  | lm :: rest, id, lmList, im =>
    let hgt := im.h
    let wdt := im.w
    let cx := truncQ (lm.x * (wdt : ℚ))
    let cy := truncQ (lm.y * (hgt : ℚ))
    let lmList := lmList ++ [⟨id, cx, cy⟩]
    let im := if draw then drawCircle im cx cy else im
    positionLoop draw rest (id + 1) lmList im

/-- `HandDetector.findPosition(self, img, hand_no=0, draw=True)`: guarded by
`if self.results and self.results.multi_hand_landmarks:` (Python truthiness),
it indexes `self.results.multi_hand_landmarks[hand_no]` — which raises
`IndexError` when `hand_no` is out of range for a non-empty hand list — and
otherwise returns `lmList = []`.  The method assigns no attribute of `self`,
so the returned detector state is the input state. -/
def HandDetector.findPosition (self : HandDetector) (img : Frame) (hand_no : ℕ)
    (draw : Bool) : Except String (HandDetector × List PixelPosition × Frame) :=
  match self.results with
  | none => .ok (self, [], img)
  | some r =>
    if r.truthy then
      match r.multi_hand_landmarks with
      | none => .ok (self, [], img)
      | some hs =>
        match hs.get? hand_no with
        | none => .error "IndexError: list index out of range"
        | some myHand => .ok (self, positionLoop draw myHand.landmark 0 [] img)
    else .ok (self, [], img)

/-! ## The `main` loop

`main()` opens the camera, builds a default detector, and loops: read a
frame (break on failure), `findHands` with drawing, `findPosition` with
`hand_no = 0` and drawing, print the landmark list when non-empty, compute
FPS from the elapsed time since the stored previous timestamp, overlay the
FPS text, display the frame, and break when `waitKey(1) & 0xFF == 27`.
After the loop, `cap.release()` and `cv.destroyAllWindows()` run.

The environment of one iteration — what `cap.read()`, `time.time()` and
`cv.waitKey(1)` return — is an `IterInput`; a run of the loop consumes a
finite script of such inputs. -/

/-- The external inputs consumed by one loop iteration: `read` is the
outcome of `cap.read()` (`none` when `success` is false), `time` the value
of `time.time()`, and `key` the raw `cv.waitKey(1)` return value. -/
structure IterInput where
  read : Option Frame
  time : ℚ
  key : ℕ

/-- The state carried and produced by `main`: the FPS timestamp `pTime`,
the detector, and observables — processed-frame count, console prints,
per-iteration FPS values, displayed frames, and whether `cap.release()` /
`cv.destroyAllWindows()` have executed. -/
structure LoopState where
  pTime : ℚ
  detector : HandDetector
  processed : ℕ
  printed : List (List PixelPosition)
  fpsLog : List ℚ
  shown : List Frame
  released : Bool
  destroyed : Bool

/-- The state of `main` just before the `while` loop: `pTime = 0`, a
detector constructed with the default arguments
`HandDetector(mode=False, max_hands=2, detection_con=0.5, track_con=0.5)`. -/
def initLoopState (model : Frame → DetectionResult) : LoopState :=
  { pTime := 0
    detector := HandDetector.init false 2 (1/2) (1/2) model
    processed := 0
    printed := []
    fpsLog := []
    shown := []
    released := false
    destroyed := false }

/-- The code after the `while` loop: `cap.release()` then
`cv.destroyAllWindows()`. -/
def releaseAll (st : LoopState) : LoopState :=
  { st with released := true, destroyed := true }

/-- `fps = 1 / (cTime - pTime) if (cTime - pTime) > 0 else 0`. -/
def fpsOf (pTime cTime : ℚ) : ℚ :=
  if cTime - pTime > 0 then 1 / (cTime - pTime) else 0

/-- `cv.putText(img, f'FPS: {int(fps)}', (10, 70), ...)`. -/
def putTextFPS (img : Frame) (fps : ℚ) : Frame :=
  { img with ops := img.ops ++ [DrawOp.fpsText (truncQ fps)] }

/-- Outcome of one iteration of the `while True:` body: leave the loop via
`break`, crash on an uncaught exception, or continue with a new state. -/
inductive IterOut where
  | brk (st : LoopState)
  | crash (st : LoopState) (msg : String)
  | next (st : LoopState)

/-- One iteration of the `while True:` body of `main`. -/
def loopIter (st : LoopState) (inp : IterInput) : IterOut :=
  match inp.read with
  | none => .brk st
  | some img =>
    let (det, img) := st.detector.findHands img true
    match det.findPosition img 0 true with
    | .error msg => .crash { st with detector := det } msg
    | .ok (det, lmList, img) =>
      let printed := if lmList.isEmpty then st.printed else st.printed ++ [lmList]
      let cTime := inp.time
      let fps := fpsOf st.pTime cTime
      let img := putTextFPS img fps
      let st := { st with
        pTime := cTime
        detector := det
        processed := st.processed + 1
        printed := printed
        fpsLog := st.fpsLog ++ [fps]
        shown := st.shown ++ [img] }
      if inp.key % 256 == 27 then .brk st else .next st

/-- How a finite run of `main` ends: the loop exited (via either `break`)
and the release code ran; an exception propagated (no release); or the
input script was exhausted while the loop would have continued. -/
inductive LoopOutcome where
  | exited (final : LoopState)
  | crashed (st : LoopState) (msg : String)
  | outOfScript (st : LoopState)

/-- Run the `while True:` loop of `main` over a finite input script,
followed by `cap.release(); cv.destroyAllWindows()` on loop exit. -/
def runLoop (st : LoopState) : List IterInput → LoopOutcome
  | [] => .outOfScript st
  | inp :: rest =>
    match loopIter st inp with
    | .brk st => .exited (releaseAll st)
    | .crash st msg => .crashed st msg
    | .next st => runLoop st rest

/-- `main()` over a finite script of external inputs, with `model` the
external landmark model of the default-constructed detector. -/
def runMain (model : Frame → DetectionResult) (script : List IterInput) : LoopOutcome :=
  runLoop (initLoopState model) script

/-! ## Derived closed forms and basic lemmas -/

/-- The pixel conversion applied to one landmark: `(id, int(x·w), int(y·h))`. -/
def pixelOf (hgt wdt : ℕ) (id : ℕ) (lm : Landmark) : PixelPosition :=
  ⟨id, truncQ (lm.x * (wdt : ℚ)), truncQ (lm.y * (hgt : ℚ))⟩

/-- Closed form of the list built by the `findPosition` loop. -/
def pixelList (hgt wdt : ℕ) : ℕ → List Landmark → List PixelPosition
  | _, [] => []
  | id, lm :: rest => pixelOf hgt wdt id lm :: pixelList hgt wdt (id + 1) rest

theorem pixelList_length (hgt wdt : ℕ) (lms : List Landmark) :
    ∀ id, (pixelList hgt wdt id lms).length = lms.length := by
  induction lms with
  | nil => intro id; rfl
  | cons lm rest ih => intro id; simp [pixelList, ih]

theorem pixelList_get? (hgt wdt : ℕ) (lms : List Landmark) :
    ∀ id k, (pixelList hgt wdt id lms).get? k = (lms.get? k).map (pixelOf hgt wdt (id + k)) := by
  induction lms with
  | nil => intro id k; simp [pixelList]
  | cons lm rest ih =>
    intro id k
    cases k with
    | zero => simp [pixelList]
    | succ k =>
      have := ih (id + 1) k
      simp only [pixelList, List.get?_cons_succ, this, Option.map]
      have harith : id + 1 + k = id + (k + 1) := by omega
      rw [harith]

theorem positionLoop_fst (draw : Bool) (lms : List Landmark) :
    ∀ id acc im, (positionLoop draw lms id acc im).1 = acc ++ pixelList im.h im.w id lms := by
  induction lms with
  | nil => intro id acc im; simp [positionLoop, pixelList]
  | cons lm rest ih =>
    intro id acc im
    cases draw with
    | false =>
      simp only [positionLoop, if_neg (by simp : ¬ (false = true))]
      rw [ih]
      simp [pixelList, pixelOf]
    | true =>
      simp only [positionLoop, if_pos rfl]
      rw [ih]
      simp [pixelList, pixelOf, drawCircle]

theorem positionLoop_dims (draw : Bool) (lms : List Landmark) :
    ∀ id acc im, (positionLoop draw lms id acc im).2.h = im.h ∧
      (positionLoop draw lms id acc im).2.w = im.w := by
  induction lms with
  | nil => intro id acc im; exact ⟨rfl, rfl⟩
  | cons lm rest ih =>
    intro id acc im
    cases draw with
    | false =>
      simp only [positionLoop, if_neg (by simp : ¬ (false = true))]
      exact ih _ _ _
    | true =>
      simp only [positionLoop, if_pos rfl]
      have := ih (id + 1)
        (acc ++ [⟨id, truncQ (lm.x * (im.w : ℚ)), truncQ (lm.y * (im.h : ℚ))⟩])
        (drawCircle im (truncQ (lm.x * (im.w : ℚ))) (truncQ (lm.y * (im.h : ℚ))))
      simpa [drawCircle] using this

theorem positionLoop_snd_nodraw (lms : List Landmark) :
    ∀ id acc im, (positionLoop false lms id acc im).2 = im := by
  induction lms with
  | nil => intro id acc im; rfl
  | cons lm rest ih =>
    intro id acc im
    simp only [positionLoop, if_neg (by simp : ¬ (false = true))]
    exact ih _ _ _

theorem findHands_fst (d : HandDetector) (img : Frame) (draw : Bool) :
    (d.findHands img draw).1 = { d with results := some (d.hands (cvtColorBGR2RGB img)) } :=
  rfl

theorem findHands_snd_nodraw (d : HandDetector) (img : Frame) :
    (d.findHands img false).2 = img := by
  unfold HandDetector.findHands
  cases ht : (d.hands (cvtColorBGR2RGB img)).truthy with
  | false => simp [ht]
  | true =>
    cases hml : (d.hands (cvtColorBGR2RGB img)).multi_hand_landmarks with
    | none => simp [ht, hml]
    | some hs => simp [ht, hml, List.foldl_fixed]

theorem findPosition_eq_ok (d : HandDetector) (img : Frame) (hand_no : ℕ) (draw : Bool)
    (r : DetectionResult) (hs : List Hand) (myHand : Hand)
    (hres : d.results = some r) (hml : r.multi_hand_landmarks = some hs)
    (hget : hs.get? hand_no = some myHand) :
    d.findPosition img hand_no draw = .ok (d, positionLoop draw myHand.landmark 0 [] img) := by
  have hne : hs.isEmpty = false := by
    cases hs with
    | nil => simp [List.get?] at hget
    | cons a t => rfl
  have ht : r.truthy = true := by simp [DetectionResult.truthy, hml, hne]
  unfold HandDetector.findPosition
  rw [hres]
  simp only [ht, hml, hget, if_true, eq_self_iff_true]

theorem findPosition_none (d : HandDetector) (img : Frame) (hand_no : ℕ) (draw : Bool)
    (hres : d.results = none) :
    d.findPosition img hand_no draw = .ok (d, [], img) := by
  unfold HandDetector.findPosition
  rw [hres]

theorem findPosition_err (d : HandDetector) (img : Frame) (hand_no : ℕ) (draw : Bool)
    (r : DetectionResult) (hs : List Hand)
    (hres : d.results = some r) (hml : r.multi_hand_landmarks = some hs)
    (hne : hs ≠ []) (hget : hs.get? hand_no = none) :
    d.findPosition img hand_no draw = .error "IndexError: list index out of range" := by
  have ht : r.truthy = true := by
    simp [DetectionResult.truthy, hml, List.isEmpty_iff, hne]
  unfold HandDetector.findPosition
  rw [hres]
  simp only [ht, hml, hget, if_true]

theorem findPosition_empty (d : HandDetector) (img : Frame) (hand_no : ℕ) (draw : Bool)
    (h : ∀ r, d.results = some r → r.truthy = false) :
    d.findPosition img hand_no draw = .ok (d, [], img) := by
  unfold HandDetector.findPosition
  cases hres : d.results with
  | none => rfl
  | some r => simp [h r hres]

theorem findPosition_zero_ok (d : HandDetector) (img : Frame) (draw : Bool) :
    ∃ out, d.findPosition img 0 draw = .ok out := by
  cases hres : d.results with
  | none => exact ⟨_, findPosition_empty d img 0 draw (by intro r hr; rw [hres] at hr; cases hr)⟩
  | some r =>
    cases hml : r.multi_hand_landmarks with
    | none =>
      refine ⟨_, findPosition_empty d img 0 draw ?_⟩
      intro r2 hr2
      rw [hres] at hr2
      cases hr2
      simp [DetectionResult.truthy, hml]
    | some hs =>
      cases hs with
      | nil =>
        refine ⟨_, findPosition_empty d img 0 draw ?_⟩
        intro r2 hr2
        rw [hres] at hr2
        cases hr2
        simp [DetectionResult.truthy, hml]
      | cons hd tl =>
        exact ⟨_, findPosition_eq_ok d img 0 draw r (hd :: tl) hd hres hml rfl⟩

theorem loopIter_read_some (st : LoopState) (inp : IterInput) (img : Frame)
    (hread : inp.read = some img) :
    ∃ st', (loopIter st inp = .next st' ∨ loopIter st inp = .brk st') ∧
      st'.pTime = inp.time ∧
      st'.fpsLog = st.fpsLog ++ [fpsOf st.pTime inp.time] ∧
      st'.processed = st.processed + 1 := by
  rcases hfh : st.detector.findHands img true with ⟨det, img2⟩
  rcases hfp0 : det.findPosition img2 0 true with msg | out
  · obtain ⟨out, hout⟩ := findPosition_zero_ok det img2 true
    rw [hout] at hfp0
    cases hfp0
  · rcases out with ⟨det2, lmList, img3⟩
    cases h27 : (inp.key % 256 == 27) with
    | true =>
      refine ⟨{ st with
          pTime := inp.time
          detector := det2
          processed := st.processed + 1
          printed := if lmList.isEmpty then st.printed else st.printed ++ [lmList]
          fpsLog := st.fpsLog ++ [fpsOf st.pTime inp.time]
          shown := st.shown ++ [putTextFPS img3 (fpsOf st.pTime inp.time)] },
        Or.inr ?_, rfl, rfl, rfl⟩
      simp only [loopIter, hread, hfh, hfp0, h27, if_true]
    | false =>
      refine ⟨{ st with
          pTime := inp.time
          detector := det2
          processed := st.processed + 1
          printed := if lmList.isEmpty then st.printed else st.printed ++ [lmList]
          fpsLog := st.fpsLog ++ [fpsOf st.pTime inp.time]
          shown := st.shown ++ [putTextFPS img3 (fpsOf st.pTime inp.time)] },
        Or.inl ?_, rfl, rfl, rfl⟩
      simp only [loopIter, hread, hfh, hfp0, h27]
      simp

theorem loopIter_read_none (st : LoopState) (inp : IterInput) (hread : inp.read = none) :
    loopIter st inp = .brk st := by
  simp only [loopIter, hread]

theorem runLoop_read_none (st : LoopState) (inp : IterInput) (rest : List IterInput)
    (hread : inp.read = none) :
    runLoop st (inp :: rest) = .exited (releaseAll st) := by
  simp only [runLoop, loopIter_read_none st inp hread]

theorem runLoop_exited_released (st : LoopState) (script : List IterInput) :
    ∀ fin, runLoop st script = .exited fin → fin.released = true ∧ fin.destroyed = true := by
  induction script generalizing st with
  | nil => intro fin h; simp [runLoop] at h
  | cons inp rest ih =>
    intro fin h
    unfold runLoop at h
    cases hIter : loopIter st inp with
    | brk st2 =>
      rw [hIter] at h
      cases h
      exact ⟨rfl, rfl⟩
    | crash st2 msg => rw [hIter] at h; cases h
    | next st2 =>
      rw [hIter] at h
      exact ih st2 fin h

/-! ## Concrete fixtures -/

/-- A hand whose only landmark has normalized coordinates `(0.27, 0.5)`. -/
def handA : Hand := ⟨[⟨27/100, 1/2⟩]⟩

/-- A detection result with exactly one hand, `handA`. -/
def resultA : DetectionResult := ⟨some [handA]⟩

/-- A detector whose last detection found exactly the one hand `handA`. -/
def detectorA : HandDetector :=
  { mode := false
    max_hands := 2
    detection_con := 1/2
    track_con := 1/2
    hands := fun _ => resultA
    results := some resultA }

/-- A bare 10×10 3-channel BGR frame. -/
def frameA : Frame := ⟨10, 10, 3, false, 0, []⟩

/-- A hand whose only landmark is out of the normalized range: `(2, 3)`. -/
def handB : Hand := ⟨[⟨2, 3⟩]⟩

/-- A detection result with exactly one hand, `handB`. -/
def resultB : DetectionResult := ⟨some [handB]⟩

/-- A detector whose last detection found exactly the one hand `handB`. -/
def detectorB : HandDetector :=
  { mode := false
    max_hands := 2
    detection_con := 1/2
    track_con := 1/2
    hands := fun _ => resultB
    results := some resultB }

/-- A model that finds no hands in any frame (`multi_hand_landmarks = None`). -/
def modelNone : Frame → DetectionResult := fun _ => ⟨none⟩

/-! ## C1 -/

/-- C1, as stated, is false: the code computes `cx = int(lm.x * w)`, Python
truncation, not rounding.  On a 10×10 frame with landmark `x = 0.27` the
returned `cx` is `2`, while `round(0.27 * 10) = 3`. -/
theorem C1_round_counterexample :
    detectorA.findPosition frameA 0 false = .ok (detectorA, [⟨0, 2, 5⟩], frameA) ∧
    round ((27/100 : ℚ) * 10) = 3 ∧ (2 : ℤ) ≠ 3 := by
  refine ⟨?_, by norm_num [round_eq], by decide⟩
  rw [findPosition_eq_ok detectorA frameA 0 false resultA [handA] handA rfl rfl rfl]
  show Except.ok (detectorA, positionLoop false handA.landmark 0 [] frameA) = _
  simp [positionLoop, frameA, handA]
  constructor <;> norm_num [truncQ]

/-- C1 (amended): each `PixelPosition` `(id, cx, cy)` returned by
`findPosition` satisfies `cx = trunc(x·w)` and `cy = trunc(y·h)` — Python
`int()` truncation toward zero, not rounding — for the corresponding
normalized landmark `(x, y)` of the selected hand, with no clamping. -/
theorem C1_trunc_pixels (d : HandDetector) (img : Frame) (hand_no : ℕ) (draw : Bool)
    (r : DetectionResult) (hs : List Hand) (myHand : Hand)
    (hres : d.results = some r) (hml : r.multi_hand_landmarks = some hs)
    (hget : hs.get? hand_no = some myHand) :
    ∃ lmList img2, d.findPosition img hand_no draw = .ok (d, lmList, img2) ∧
      lmList.length = myHand.landmark.length ∧
      ∀ k lm, myHand.landmark.get? k = some lm →
        lmList.get? k =
          some ⟨k, truncQ (lm.x * (img.w : ℚ)), truncQ (lm.y * (img.h : ℚ))⟩ := by
  refine ⟨(positionLoop draw myHand.landmark 0 [] img).1,
          (positionLoop draw myHand.landmark 0 [] img).2, ?_, ?_, ?_⟩
  · rw [findPosition_eq_ok d img hand_no draw r hs myHand hres hml hget]
  · rw [positionLoop_fst]
    simp [pixelList_length]
  · intro k lm hk
    rw [positionLoop_fst]
    simp only [List.nil_append]
    rw [pixelList_get?, hk]
    simp [pixelOf]

/-- C1 witness: on a 10×10 frame with the out-of-range landmark `(2, 3)`,
the returned pixel position is `(0, 20, 30)` — beyond the frame bounds,
confirming that no clamping is performed. -/
theorem C1_trunc_pixels_witness :
    (∃ lmList img2, detectorB.findPosition frameA 0 false = .ok (detectorB, lmList, img2) ∧
      lmList.length = handB.landmark.length ∧
      ∀ k lm, handB.landmark.get? k = some lm →
        lmList.get? k =
          some ⟨k, truncQ (lm.x * (frameA.w : ℚ)), truncQ (lm.y * (frameA.h : ℚ))⟩) ∧
    truncQ ((2 : ℚ) * (frameA.w : ℚ)) = 20 ∧ 10 < (20 : ℤ) := by
  refine ⟨C1_trunc_pixels detectorB frameA 0 false resultB [handB] handB rfl rfl rfl,
    ?_, by decide⟩
  norm_num [truncQ, frameA]

/-! ## C2 -/

/-- C2, as stated, is false: with a last result containing exactly one hand,
`findPosition` at `hand_no = 1` raises `IndexError` (the guard only covers
the no-result and no-hands cases), rather than returning an empty list. -/
theorem C2_out_of_range_counterexample :
    detectorA.results = some ⟨some [handA]⟩ ∧
    detectorA.findPosition frameA 1 false = .error "IndexError: list index out of range" := by
  constructor
  · rfl
  · rfl

/-- C2 (amended): when no detection has been made or the last result has no
hands, `findPosition` returns the empty list for every hand index; but when
the last result contains `n ≥ 1` hands, any `hand_no ≥ n` raises an
`IndexError` instead of returning. -/
theorem C2_out_of_range (d : HandDetector) (img : Frame) (hand_no : ℕ) (draw : Bool) :
    ((∀ r, d.results = some r → r.truthy = false) →
      d.findPosition img hand_no draw = .ok (d, [], img)) ∧
    (∀ r hs, d.results = some r → r.multi_hand_landmarks = some hs → hs ≠ [] →
      hs.length ≤ hand_no →
      d.findPosition img hand_no draw = .error "IndexError: list index out of range") := by
  constructor
  · intro h
    exact findPosition_empty d img hand_no draw h
  · intro r hs hres hml hne hlen
    have ht : r.truthy = true := by
      simp [DetectionResult.truthy, hml, List.isEmpty_iff, hne]
    have hget : hs.get? hand_no = none := by
      rw [List.get?_eq_none]
      exact hlen
    unfold HandDetector.findPosition
    rw [hres]
    simp only [ht, hml, hget, if_true]

/-- C2 witness: a fresh detector yields the empty list at hand index 5, and
`detectorA` (one hand in its last result) raises at hand index 5. -/
theorem C2_out_of_range_witness :
    (HandDetector.init false 2 (1/2) (1/2) modelNone).findPosition frameA 5 false =
      .ok (HandDetector.init false 2 (1/2) (1/2) modelNone, [], frameA) ∧
    detectorA.findPosition frameA 5 false = .error "IndexError: list index out of range" :=
  ⟨(C2_out_of_range (HandDetector.init false 2 (1/2) (1/2) modelNone) frameA 5 false).1
      (by intro r hr; cases hr),
   (C2_out_of_range detectorA frameA 5 false).2 resultA [handA] rfl rfl
      (by simp) (by simp)⟩

/-! ## C3 -/

/-- C3: on a freshly constructed detector (`results = None`, no `findHands`
call yet), `findPosition` returns the empty list for every frame, hand
index, and draw flag. -/
theorem C3_fresh_detector_empty (mode : Bool) (mh : ℕ) (dc tc : ℚ)
    (model : Frame → DetectionResult) (img : Frame) (hand_no : ℕ) (draw : Bool) :
    (HandDetector.init mode mh dc tc model).findPosition img hand_no draw =
      .ok (HandDetector.init mode mh dc tc model, [], img) :=
  rfl

/-! ## C4 -/

/-- C4: each iteration's FPS value is `1 / (cTime - pTime)` when the elapsed
time is strictly positive and `0` otherwise; for timestamps `10` and `10.05`
the FPS is `20`, for a zero delta it is `0`; and each iteration stores the
current time as the new previous timestamp and logs exactly that FPS value. -/
theorem C4_fps_computation (t0 t1 : ℚ) (st : LoopState) (inp : IterInput) (img : Frame)
    (hread : inp.read = some img) :
    (0 < t1 - t0 → fpsOf t0 t1 = 1 / (t1 - t0)) ∧
    (¬ 0 < t1 - t0 → fpsOf t0 t1 = 0) ∧
    fpsOf 10 (201/20) = 20 ∧
    fpsOf 10 10 = 0 ∧
    (∃ st', (loopIter st inp = .next st' ∨ loopIter st inp = .brk st') ∧
      st'.pTime = inp.time ∧
      st'.fpsLog = st.fpsLog ++ [fpsOf st.pTime inp.time]) := by
  refine ⟨?_, ?_, by norm_num [fpsOf], by norm_num [fpsOf], ?_⟩
  · intro h
    rw [fpsOf, if_pos h]
  · intro h
    rw [fpsOf, if_neg h]
  · obtain ⟨st', hiter, hp, hf, _⟩ := loopIter_read_some st inp img hread
    exact ⟨st', hiter, hp, hf⟩

/-- C4 witness: instantiated at the timestamps `10` and `10.05` and at a
concrete iteration whose frame read succeeds. -/
theorem C4_fps_computation_witness :
    (0 < (201/20 : ℚ) - 10 → fpsOf 10 (201/20) = 1 / ((201/20 : ℚ) - 10)) ∧
    (¬ 0 < (201/20 : ℚ) - 10 → fpsOf 10 (201/20) = 0) ∧
    fpsOf 10 (201/20) = 20 ∧
    fpsOf 10 10 = 0 ∧
    (∃ st', (loopIter (initLoopState modelNone) ⟨some frameA, 201/20, 0⟩ = .next st' ∨
        loopIter (initLoopState modelNone) ⟨some frameA, 201/20, 0⟩ = .brk st') ∧
      st'.pTime = (⟨some frameA, 201/20, 0⟩ : IterInput).time ∧
      st'.fpsLog = (initLoopState modelNone).fpsLog ++
        [fpsOf (initLoopState modelNone).pTime (⟨some frameA, 201/20, 0⟩ : IterInput).time]) :=
  C4_fps_computation 10 (201/20) (initLoopState modelNone) ⟨some frameA, 201/20, 0⟩ frameA rfl

/-! ## C5 -/

/-- C5: when the model detects zero hands in a frame, `findHands` returns
the input frame with no overlay drawn, and `findPosition` on the updated
detector returns the empty list for every frame, hand index and draw flag —
a normal outcome, not a fault. -/
theorem C5_zero_hands (d : HandDetector) (img : Frame) (draw : Bool)
    (h : (d.hands (cvtColorBGR2RGB img)).multi_hand_landmarks = none ∨
         (d.hands (cvtColorBGR2RGB img)).multi_hand_landmarks = some []) :
    (d.findHands img draw).2 = img ∧
    ∀ img2 hand_no dw,
      ((d.findHands img draw).1).findPosition img2 hand_no dw =
        .ok ((d.findHands img draw).1, [], img2) := by
  have ht : (d.hands (cvtColorBGR2RGB img)).truthy = false := by
    rcases h with h | h <;> simp [DetectionResult.truthy, h]
  constructor
  · unfold HandDetector.findHands
    simp [ht]
  · intro img2 hand_no dw
    apply findPosition_empty
    intro r hr
    rw [findHands_fst] at hr
    have : some (d.hands (cvtColorBGR2RGB img)) = some r := hr
    cases this
    exact ht

/-- C5 witness: a detector over the no-hands model, on the 10×10 frame. -/
theorem C5_zero_hands_witness :
    ((HandDetector.init false 2 (1/2) (1/2) modelNone).findHands frameA true).2 = frameA ∧
    ∀ img2 hand_no dw,
      (((HandDetector.init false 2 (1/2) (1/2) modelNone).findHands frameA true).1).findPosition
          img2 hand_no dw =
        .ok (((HandDetector.init false 2 (1/2) (1/2) modelNone).findHands frameA true).1,
          [], img2) :=
  C5_zero_hands (HandDetector.init false 2 (1/2) (1/2) modelNone) frameA true (Or.inl rfl)

/-! ## C6 -/

theorem findPosition_state (d : HandDetector) (img : Frame) (hand_no : ℕ) (draw : Bool)
    (out : HandDetector × List PixelPosition × Frame)
    (h : d.findPosition img hand_no draw = .ok out) : out.1 = d := by
  unfold HandDetector.findPosition at h
  split at h
  · cases h
    rfl
  · split at h
    · split at h
      · cases h
        rfl
      · split at h
        · cases h
        · cases h
          rfl
    · cases h
      rfl

/-- C6: the detector has exactly the two states `results = None` (initial)
and `results = Some r`: construction yields `None`; every `findHands` call
stores the fresh model output, overwriting whatever was there, so the
detector is afterwards in the `HasResult` state; and no `findPosition` call
ever changes `results`, so the detector never returns to `NoResult`. -/
theorem C6_state_machine (d : HandDetector) (img : Frame) (draw : Bool)
    (mode : Bool) (mh : ℕ) (dc tc : ℚ) (model : Frame → DetectionResult) :
    (HandDetector.init mode mh dc tc model).results = none ∧
    (d.findHands img draw).1.results = some (d.hands (cvtColorBGR2RGB img)) ∧
    (d.findHands img draw).1.results ≠ none ∧
    (∀ img2 hand_no dw out, d.findPosition img2 hand_no dw = .ok out →
      out.1.results = d.results) := by
  refine ⟨rfl, rfl, by simp [findHands_fst], ?_⟩
  intro img2 hand_no dw out h
  rw [findPosition_state d img2 hand_no dw out h]

/-! ## C7 -/

/-- C7: if a frame read fails, the loop exits at once — independently of any
later scripted input, with the iteration count unchanged, so a failure on
the first read leaves exactly zero processed frames — and on every loop
exit, read failure or Escape alike, the capture handle is released and the
display windows are destroyed. -/
theorem C7_loop_exit (model : Frame → DetectionResult) (t : ℚ) (k : ℕ)
    (rest : List IterInput) (st : LoopState) (script : List IterInput)
    (inp : IterInput) (fin : LoopState) :
    (runMain model (⟨none, t, k⟩ :: rest) = .exited (releaseAll (initLoopState model)) ∧
      (releaseAll (initLoopState model)).processed = 0 ∧
      (releaseAll (initLoopState model)).released = true ∧
      (releaseAll (initLoopState model)).destroyed = true) ∧
    (inp.read = none → runLoop st (inp :: rest) = .exited (releaseAll st) ∧
      (releaseAll st).processed = st.processed) ∧
    (runLoop st script = .exited fin → fin.released = true ∧ fin.destroyed = true) := by
  refine ⟨⟨?_, rfl, rfl, rfl⟩, ?_, ?_⟩
  · exact runLoop_read_none (initLoopState model) ⟨none, t, k⟩ rest rfl
  · intro h
    exact ⟨runLoop_read_none st inp rest h, rfl⟩
  · exact runLoop_exited_released st script fin

/-! ## C8 -/

/-- C8: with the deterministic model fixed at construction, calling
`findHands` twice in succession on the same static frame leaves the
detector with the same stored set of hands, and every subsequent
`findPosition` query answers identically after the first and the second
call. -/
theorem C8_detect_idempotent (d : HandDetector) (img : Frame) (dr : Bool) :
    ((d.findHands img dr).1.findHands img dr).1.results = (d.findHands img dr).1.results ∧
    ∀ imgq hand_no dw,
      ((d.findHands img dr).1.findHands img dr).1.findPosition imgq hand_no dw =
        (d.findHands img dr).1.findPosition imgq hand_no dw := by
  have hd : ((d.findHands img dr).1.findHands img dr).1 = (d.findHands img dr).1 := rfl
  exact ⟨by rw [hd], fun imgq hand_no dw => by rw [hd]⟩

/-! ## C9 -/

theorem findPosition_frame_dims (d : HandDetector) (img : Frame) (hand_no : ℕ) (draw : Bool)
    (out : HandDetector × List PixelPosition × Frame)
    (h : d.findPosition img hand_no draw = .ok out) :
    out.2.2.h = img.h ∧ out.2.2.w = img.w := by
  unfold HandDetector.findPosition at h
  split at h
  · cases h
    exact ⟨rfl, rfl⟩
  · split at h
    · split at h
      · cases h
        exact ⟨rfl, rfl⟩
      · split at h
        · cases h
        · cases h
          exact positionLoop_dims draw _ 0 [] img
    · cases h
      exact ⟨rfl, rfl⟩

theorem findPosition_frame_nodraw (d : HandDetector) (img : Frame) (hand_no : ℕ)
    (out : HandDetector × List PixelPosition × Frame)
    (h : d.findPosition img hand_no false = .ok out) : out.2.2 = img := by
  unfold HandDetector.findPosition at h
  split at h
  · cases h
    rfl
  · split at h
    · split at h
      · cases h
        rfl
      · split at h
        · cases h
        · cases h
          exact positionLoop_snd_nodraw _ 0 [] img
    · cases h
      rfl

theorem findPosition_list_dims (d : HandDetector) (img img2 : Frame) (hand_no : ℕ)
    (draw dw : Bool) (hh : img2.h = img.h) (hw : img2.w = img.w) :
    Except.map (fun out => out.2.1) (d.findPosition img hand_no draw) =
      Except.map (fun out => out.2.1) (d.findPosition img2 hand_no dw) := by
  rcases hres : d.results with _ | r
  · rw [findPosition_none d img hand_no draw hres, findPosition_none d img2 hand_no dw hres]
    rfl
  · by_cases ht : r.truthy = true
    · rcases hml : r.multi_hand_landmarks with _ | hs
      · exfalso
        simp [DetectionResult.truthy, hml] at ht
      · have hne : hs ≠ [] := by
          intro hnil
          rw [hnil] at hml
          simp [DetectionResult.truthy, hml] at ht
        rcases hget : hs.get? hand_no with _ | myHand
        · rw [findPosition_err d img hand_no draw r hs hres hml hne hget,
              findPosition_err d img2 hand_no dw r hs hres hml hne hget]
        · rw [findPosition_eq_ok d img hand_no draw r hs myHand hres hml hget,
              findPosition_eq_ok d img2 hand_no dw r hs myHand hres hml hget]
          simp only [Except.map, positionLoop_fst, List.nil_append, hh, hw]
    · have htf : r.truthy = false := by simpa using ht
      have hcond : ∀ r2, d.results = some r2 → r2.truthy = false := by
        intro r2 h2
        rw [hres] at h2
        cases h2
        exact htf
      rw [findPosition_empty d img hand_no draw hcond,
          findPosition_empty d img2 hand_no dw hcond]
      rfl

/-- C9: `findPosition` never modifies the detector: the post-call state is
the input state — same stored result and the same four configuration
fields — the frame keeps its dimensions, and repeating the call between two
detections (on the returned frame) yields the identical pixel list. -/
theorem C9_findPosition_stateless (d : HandDetector) (img : Frame) (hand_no : ℕ)
    (draw : Bool) (out : HandDetector × List PixelPosition × Frame)
    (h : d.findPosition img hand_no draw = .ok out) :
    out.1 = d ∧ out.1.results = d.results ∧ out.1.mode = d.mode ∧
    out.1.max_hands = d.max_hands ∧ out.1.detection_con = d.detection_con ∧
    out.1.track_con = d.track_con ∧
    Except.map (fun o => o.2.1) (out.1.findPosition out.2.2 hand_no draw) =
      .ok out.2.1 := by
  have hst := findPosition_state d img hand_no draw out h
  obtain ⟨hdh, hdw⟩ := findPosition_frame_dims d img hand_no draw out h
  refine ⟨hst, by rw [hst], by rw [hst], by rw [hst], by rw [hst], by rw [hst], ?_⟩
  rw [hst, ← findPosition_list_dims d img out.2.2 hand_no draw draw hdh hdw, h]
  rfl

/-- C9 witness: `detectorA` on the 10×10 frame at hand index 0 with no
drawing returns its own state and the list `[(0, 2, 5)]`, reproducible by a
repeated call. -/
theorem C9_findPosition_stateless_witness :
    (detectorA, [(⟨0, 2, 5⟩ : PixelPosition)], frameA).1 = detectorA ∧
    (detectorA, [(⟨0, 2, 5⟩ : PixelPosition)], frameA).1.results = detectorA.results ∧
    (detectorA, [(⟨0, 2, 5⟩ : PixelPosition)], frameA).1.mode = detectorA.mode ∧
    (detectorA, [(⟨0, 2, 5⟩ : PixelPosition)], frameA).1.max_hands = detectorA.max_hands ∧
    (detectorA, [(⟨0, 2, 5⟩ : PixelPosition)], frameA).1.detection_con =
      detectorA.detection_con ∧
    (detectorA, [(⟨0, 2, 5⟩ : PixelPosition)], frameA).1.track_con = detectorA.track_con ∧
    Except.map (fun o => o.2.1)
        ((detectorA, [(⟨0, 2, 5⟩ : PixelPosition)], frameA).1.findPosition
          (detectorA, [(⟨0, 2, 5⟩ : PixelPosition)], frameA).2.2 0 false) =
      .ok (detectorA, [(⟨0, 2, 5⟩ : PixelPosition)], frameA).2.1 :=
  C9_findPosition_stateless detectorA frameA 0 false (detectorA, [⟨0, 2, 5⟩], frameA)
    (by
      rw [findPosition_eq_ok detectorA frameA 0 false resultA [handA] handA rfl rfl rfl]
      show Except.ok (detectorA, positionLoop false handA.landmark 0 [] frameA) = _
      simp [positionLoop, frameA, handA]
      constructor <;> norm_num [truncQ])

/-! ## C10 -/

/-- C10: with both draw flags false, neither operation touches the frame's
pixel buffer — `findHands` and `findPosition` return the input frame
unchanged — and the pixel list computed by `findPosition` depends on the
frame only through its dimensions. -/
theorem C10_no_draw_no_mutation (d : HandDetector) (img img2 : Frame) (hand_no : ℕ)
    (hh : img2.h = img.h) (hw : img2.w = img.w) :
    (d.findHands img false).2 = img ∧
    (∀ out, d.findPosition img hand_no false = .ok out → out.2.2 = img) ∧
    Except.map (fun out => out.2.1) (d.findPosition img hand_no false) =
      Except.map (fun out => out.2.1) (d.findPosition img2 hand_no false) :=
  ⟨findHands_snd_nodraw d img,
   fun out h => findPosition_frame_nodraw d img hand_no out h,
   findPosition_list_dims d img img2 hand_no false false hh hw⟩

/-- A second 10×10 frame with different pixel content (`base = 7`). -/
def frameB : Frame := ⟨10, 10, 3, false, 7, []⟩

/-- C10 witness: `detectorA` on two distinct 10×10 frames. -/
theorem C10_no_draw_no_mutation_witness :
    (detectorA.findHands frameA false).2 = frameA ∧
    (∀ out, detectorA.findPosition frameA 0 false = .ok out → out.2.2 = frameA) ∧
    Except.map (fun out => out.2.1) (detectorA.findPosition frameA 0 false) =
      Except.map (fun out => out.2.1) (detectorA.findPosition frameB 0 false) :=
  C10_no_draw_no_mutation detectorA frameA frameB 0 rfl rfl
